import Mathlib

/-!
# CapekNav: path-query facade over a Detour navigation mesh

A shallow embedding of `src/CapekNav/CapekNav.cpp`.

* `float` values are modelled by `ℚ`.  Every finite binary32 value is a dyadic rational, and the
  only arithmetic the facade performs on coordinates is a multiplication by `-1.0f` and plain
  copies, both exact on finite values.
* The Detour engine (`dtNavMesh`, `dtNavMeshQuery`) is an external collaborator.  Its entry points
  are fields of a record of state-passing functions, so every statement below ranges over every
  possible engine behaviour.
* The caller's output buffer `WOWPOS *path` is memory indexed from `path`; the embedding keeps a
  log of the indices stored to and of the engine entry points invoked.
-/

namespace CapekNav

/-! ## Data model -/

/-- World-space position (`WOWPOS`, declared in `CapekNav.h`): three `float` fields. -/
structure WOWPOS where
  x : ℚ
  y : ℚ
  z : ℚ
  deriving DecidableEq, Repr

/-- Mesh-space point, a `float[3]` on the C++ side. -/
structure Vec3 where
  c0 : ℚ
  c1 : ℚ
  c2 : ℚ
  deriving DecidableEq, Repr

/-- Detour polygon reference (`dtPolyRef`, an unsigned integer; `0` means "no polygon"). -/
abbrev dtPolyRef := Nat

/-- Detour tile reference (`dtTileRef`, an unsigned integer; `0` means "no tile"). -/
abbrev dtTileRef := Nat

/-- Detour status word (`dtStatus`, an unsigned integer). -/
abbrev dtStatus := Nat

/-- Query filter as configured through `setIncludeFlags` / `setExcludeFlags`. -/
structure dtQueryFilter where
  includeFlags : Nat
  excludeFlags : Nat
  deriving DecidableEq, Repr

/-- `static const int MAX_POLYS = 256;` -/
def MAX_POLYS : Nat := 256

/-! ## Coordinate transform (inline code of `FindStraightPath`) -/

/-- World to mesh space, lines 178-187:
`m[0] = -1.0f * p.y; m[1] = p.z; m[2] = -1.0f * p.x`. -/
def toMeshSpace (p : WOWPOS) : Vec3 :=
  { c0 := -1 * p.y, c1 := p.z, c2 := -1 * p.x }

/-- Mesh to world space, the three stores of lines 239-241 seen as one value:
`w.y = -1.0f * m[0]; w.z = m[1]; w.x = -1.0f * m[2]`. -/
def toWorldSpace (m : Vec3) : WOWPOS :=
  { x := -1 * m.c2, y := -1 * m.c0, z := m.c1 }

/-! ## Output buffer -/

/-- Caller memory reachable through `path`, with the log of element indices stored to
(most recent first). -/
structure PathMem where
  cell : Nat → WOWPOS
  written : List Nat

/-- Store `path[pos].x = v`. -/
def PathMem.storeX (m : PathMem) (pos : Nat) (v : ℚ) : PathMem :=
  { cell := fun j => if j = pos then { m.cell j with x := v } else m.cell j
    written := pos :: m.written }

/-- Store `path[pos].y = v`. -/
def PathMem.storeY (m : PathMem) (pos : Nat) (v : ℚ) : PathMem :=
  { cell := fun j => if j = pos then { m.cell j with y := v } else m.cell j
    written := pos :: m.written }

/-- Store `path[pos].z = v`. -/
def PathMem.storeZ (m : PathMem) (pos : Nat) (v : ℚ) : PathMem :=
  { cell := fun j => if j = pos then { m.cell j with z := v } else m.cell j
    written := pos :: m.written }

/-! ## Query engine interface -/

/-- Engine entry points of `dtNavMeshQuery` as invoked by the facade, with the arguments passed. -/
inductive QueryCall where
  | init (maxNodes : Nat)
  | findNearestPoly (center extents : Vec3) (filter : dtQueryFilter)
  | findPath (startRef endRef : dtPolyRef) (spos epos : Vec3) (filter : dtQueryFilter)
      (maxPath : Nat)
  | findStraightPath (spos epos : Vec3) (npolys : Int) (maxStraightPath : Nat)
  deriving DecidableEq, Repr

/-- What `findNearestPoly` leaves behind: status, `*nearestRef`, `nearestPt`. -/
structure NearestPolyResult (σ : Type) where
  state : σ
  status : dtStatus
  nearestRef : dtPolyRef
  nearestPt : Vec3

/-- What `findPath` leaves behind: status, the `path` array and `*pathCount`. -/
structure FindPathResult (σ : Type) where
  state : σ
  status : dtStatus
  polys : Nat → dtPolyRef
  npolys : Int

/-- What `findStraightPath` leaves behind: status, the flat `straightPath` float array (three
floats per point), the flag and polygon arrays, and `*straightPathCount`. -/
structure StraightPathResult (σ : Type) where
  state : σ
  status : dtStatus
  straightPath : Nat → ℚ
  straightPathFlags : Nat → Nat
  straightPathPolys : Nat → dtPolyRef
  nstraightPath : Int

/-- The `dtNavMeshQuery` object bound to the current mesh: arbitrary state-passing functions
over an engine state `σ`. -/
structure dtNavMeshQuery (σ : Type) where
  init : σ → Nat → σ × dtStatus
  findNearestPoly : σ → Vec3 → Vec3 → dtQueryFilter → NearestPolyResult σ
  findPath : σ → dtPolyRef → dtPolyRef → Vec3 → Vec3 → dtQueryFilter → Nat → FindPathResult σ
  findStraightPath : σ → Vec3 → Vec3 → (Nat → dtPolyRef) → Int → Nat → StraightPathResult σ

/-! ## `CapekNav::FindStraightPath` -/

/-- The loop of lines 237-243:
`for (int i = 0; i < m_nstraightPath*3; ) { path[pos].y = -1.0f * sp[i++]; path[pos].z = sp[i++];
path[pos].x = -1.0f * sp[i++]; pos++; }`.  Returns the memory and the final `pos`. -/
def copyStraightPath (sp : Nat → ℚ) (n : Int) (i pos : Nat) (m : PathMem) : PathMem × Nat :=
  if (i : Int) < n * 3 then
    let m1 := m.storeY pos (-1 * sp i)
    let m2 := m1.storeZ pos (sp (i + 1))
    let m3 := m2.storeX pos (-1 * sp (i + 2))
    copyStraightPath sp n (i + 3) (pos + 1) m3
  else
    (m, pos)
termination_by (n * 3 - i).toNat
decreasing_by omega

/-- Outcome of one `FindStraightPath` call. -/
structure PathOut (σ : Type) where
  ret : Int
  mem : PathMem
  calls : List QueryCall
  state : σ

/-- Lines 190-192: `setIncludeFlags(0xffff); setExcludeFlags(0);`. -/
def m_filter : dtQueryFilter := { includeFlags := 0xffff, excludeFlags := 0 }

/-- Lines 195-198: the search half-extents `(2, 4, 2)`. -/
def m_polyPickExt : Vec3 := { c0 := 2, c1 := 4, c2 := 2 }

/-- Lines 205 and 209: `init(m_navMesh, 2048)` followed by the nearest-polygon lookup for the
start point in mesh space. -/
def snapStart {σ : Type} (q : dtNavMeshQuery σ) (s0 : σ) (start : WOWPOS) : NearestPolyResult σ :=
  q.findNearestPoly (q.init s0 2048).1 (toMeshSpace start) m_polyPickExt m_filter

/-- Line 210: the nearest-polygon lookup for the end point, run after the one for the start. -/
def snapEnd {σ : Type} (q : dtNavMeshQuery σ) (s0 : σ) (start end_ : WOWPOS) :
    NearestPolyResult σ :=
  q.findNearestPoly (snapStart q s0 start).state (toMeshSpace end_) m_polyPickExt m_filter

/-- Line 232: the corridor search between the two snapped polygons. -/
def corridor {σ : Type} (q : dtNavMeshQuery σ) (s0 : σ) (start end_ : WOWPOS) :
    FindPathResult σ :=
  q.findPath (snapEnd q s0 start end_).state (snapStart q s0 start).nearestRef
    (snapEnd q s0 start end_).nearestRef (toMeshSpace start) (toMeshSpace end_) m_filter MAX_POLYS

/-- Line 236: straight-path extraction along the corridor. -/
def straight {σ : Type} (q : dtNavMeshQuery σ) (s0 : σ) (start end_ : WOWPOS) :
    StraightPathResult σ :=
  q.findStraightPath (corridor q s0 start end_).state (toMeshSpace start) (toMeshSpace end_)
    (corridor q s0 start end_).polys (corridor q s0 start end_).npolys MAX_POLYS

set_option linter.unusedVariables false in
/-- `int CapekNav::FindStraightPath(WOWPOS start, WOWPOS end, WOWPOS *path, int size)`.

`ERROR_NEARESTPOLY` is a constant of `CapekNav.h` and is taken as a parameter.  `calls` lists the
engine entry points invoked, most recent first.  The body never reads `size`. -/
def FindStraightPath {σ : Type} (ERROR_NEARESTPOLY : Int) (q : dtNavMeshQuery σ) (s0 : σ)
    (start end_ : WOWPOS) (path : PathMem) (size : Int) : PathOut σ :=
  let m_spos := toMeshSpace start
  let m_epos := toMeshSpace end_
  let c1 := [QueryCall.init 2048]
  let r1 := snapStart q s0 start
  let c2 := QueryCall.findNearestPoly m_spos m_polyPickExt m_filter :: c1
  let m_startRef := r1.nearestRef
  let r2 := snapEnd q s0 start end_
  let c3 := QueryCall.findNearestPoly m_epos m_polyPickExt m_filter :: c2
  let m_endRef := r2.nearestRef
  if m_startRef = 0 ∨ m_endRef = 0 then
    { ret := ERROR_NEARESTPOLY, mem := path, calls := c3, state := r2.state }
  else
    let r3 := corridor q s0 start end_
    let c4 := QueryCall.findPath m_startRef m_endRef m_spos m_epos m_filter MAX_POLYS :: c3
    let m_npolys := r3.npolys
    if m_npolys ≠ 0 then
      let r4 := straight q s0 start end_
      let c5 := QueryCall.findStraightPath m_spos m_epos m_npolys MAX_POLYS :: c4
      let m_nstraightPath := r4.nstraightPath
      let lp := copyStraightPath r4.straightPath m_nstraightPath 0 0 path
      let pos := lp.2
      let p1 := lp.1.storeX pos end_.x
      let p2 := p1.storeY pos end_.y
      let p3 := p2.storeZ pos end_.z
      { ret := (pos : Int) + 1, mem := p3, calls := c5, state := r4.state }
    else
      { ret := 0, mem := path, calls := c4, state := r3.state }

/-- Recognises the corridor search among the logged engine calls. -/
def QueryCall.isFindPath : QueryCall → Bool
  | .findPath _ _ _ _ _ _ => true
  | _ => false

/-- Recognises straight-path extraction among the logged engine calls. -/
def QueryCall.isFindStraightPath : QueryCall → Bool
  | .findStraightPath _ _ _ _ => true
  | _ => false

/-- The `i`-th point of a flat `float` array holding three floats per point. -/
def pointAt (sp : Nat → ℚ) (i : Nat) : Vec3 :=
  { c0 := sp (3 * i), c1 := sp (3 * i + 1), c2 := sp (3 * i + 2) }

/-! ## Tile-set container and mesh engine interface -/

/-- `static const int NAVMESHSET_MAGIC = 'M'<<24 | 'S'<<16 | 'E'<<8 | 'T';` -/
def NAVMESHSET_MAGIC : Int :=
  ((('M'.toNat <<< 24 ||| 'S'.toNat <<< 16 ||| 'E'.toNat <<< 8 ||| 'T'.toNat : Nat) : Nat) : Int)

/-- `static const int NAVMESHSET_VERSION = 1;` -/
def NAVMESHSET_VERSION : Int := 1

/-- Build parameters of a mesh (`dtNavMeshParams`, a Detour type). -/
structure dtNavMeshParams where
  orig : Vec3
  tileWidth : ℚ
  tileHeight : ℚ
  maxTiles : Int
  maxPolys : Int
  deriving DecidableEq, Repr

/-- `struct NavMeshSetHeader`. -/
structure NavMeshSetHeader where
  magic : Int
  version : Int
  numTiles : Int
  params : dtNavMeshParams
  deriving DecidableEq, Repr

/-- `struct NavMeshTileHeader`. -/
structure NavMeshTileHeader where
  tileRef : dtTileRef
  dataSize : Int
  deriving DecidableEq, Repr

/-- Memory model of the two header structs, which depends on Detour types and on stack contents
that are not part of this file: how many bytes `fread` asks for and which struct value results.

* `readSetHeader bs` is `header` after `fread` stored the bytes `bs` into it.
* `readTileHeader old bs` is the local `tileHeader` after `fread` stored the bytes `bs` into a
  struct that held `old`: a full read replaces the value, a short read leaves the bytes it did
  not reach as they were.
* `staleTileHeader` is what the storage of `tileHeader` holds before the first read; afterwards
  it holds the header of the previous iteration. -/
structure Layout where
  sizeofSetHeader : Nat
  readSetHeader : List Nat → NavMeshSetHeader
  sizeofTileHeader : Nat
  staleTileHeader : NavMeshTileHeader
  readTileHeader : NavMeshTileHeader → List Nat → NavMeshTileHeader

/-- Arguments of one `mesh->addTile(data, dataSize, flags, tileRef, 0)` call. -/
structure TileReg where
  mesh : Nat
  data : List Nat
  dataSize : Int
  flags : Nat
  tileRef : dtTileRef
  lastRef : dtTileRef
  deriving DecidableEq, Repr

/-- File and engine operations performed by `LoadAll`, in the order of the source. -/
inductive LoadEvent where
  | fopen
  | freadSetHeader
  | dtAllocNavMesh
  | meshInit (mesh : Nat) (params : dtNavMeshParams)
  | freadTileHeader
  | dtAlloc (size : Int)
  | freadData (size : Int)
  | addTile (r : TileReg)
  | fclose
  deriving DecidableEq, Repr

/-- The Detour mesh API used by the loader, as state-passing functions over an engine state `μ`.
Pointers are addresses, `0` being `NULL`.  The constants and `dtStatusFailed` come from Detour
headers and are fields of the record. -/
structure dtNavMeshApi (μ : Type) where
  DT_TILE_FREE_DATA : Nat
  DT_ALLOC_PERM : Nat
  dtStatusFailed : dtStatus → Bool
  dtAllocNavMesh : μ → μ × Nat
  initParams : μ → Nat → dtNavMeshParams → μ × dtStatus
  initData : μ → Nat → List Nat → Int → Nat → μ × dtStatus
  dtAlloc : μ → Int → Nat → μ × Nat
  addTile : μ → TileReg → μ × dtStatus

/-- Loader state inside the tile loop: unread bytes of `fp`, engine state, event log (most recent
first), and the value left in the storage of the local `tileHeader`. -/
structure LoadState (μ : Type) where
  fp : List Nat
  engine : μ
  events : List LoadEvent
  tileHeader : NavMeshTileHeader

/-! ## `CapekNav::LoadAll` -/

/-- The tile loop of lines 126-139, entered with loop counter `i`.  The results of the `fread`
calls and of `addTile` are not checked, as in the source.  A negative `dataSize` together with a
non-`NULL` buffer makes the source `memset` an enormous length; the embedding then reads no
payload. -/
def loadTiles {μ : Type} (L : Layout) (api : dtNavMeshApi μ) (mesh : Nat) (numTiles : Int)
    (i : Nat) (st : LoadState μ) : LoadState μ :=
  if (i : Int) < numTiles then
    let tileHeader := L.readTileHeader st.tileHeader (st.fp.take L.sizeofTileHeader)
    let fp1 := st.fp.drop L.sizeofTileHeader
    let ev1 := LoadEvent.freadTileHeader :: st.events
    if tileHeader.tileRef = 0 ∨ tileHeader.dataSize = 0 then
      { fp := fp1, engine := st.engine, events := ev1, tileHeader := tileHeader }
    else
      let a := api.dtAlloc st.engine tileHeader.dataSize api.DT_ALLOC_PERM
      let ev2 := LoadEvent.dtAlloc tileHeader.dataSize :: ev1
      if a.2 = 0 then
        { fp := fp1, engine := a.1, events := ev2, tileHeader := tileHeader }
      else
        let n := tileHeader.dataSize.toNat
        let got := fp1.take n
        let data := got ++ List.replicate (n - got.length) 0
        let fp2 := fp1.drop n
        let ev3 := LoadEvent.freadData tileHeader.dataSize :: ev2
        let reg : TileReg :=
          { mesh := mesh, data := data, dataSize := tileHeader.dataSize,
            flags := api.DT_TILE_FREE_DATA, tileRef := tileHeader.tileRef, lastRef := 0 }
        let t := api.addTile a.1 reg
        loadTiles L api mesh numTiles (i + 1)
          { fp := fp2, engine := t.1, events := LoadEvent.addTile reg :: ev3,
            tileHeader := tileHeader }
  else
    st
termination_by (numTiles - i).toNat
decreasing_by omega

/-- Outcome of one `LoadAll` call: return value, the member `m_navMesh` afterwards, engine state,
bytes of the file left unread, event log (most recent first). -/
structure LoadOut (μ : Type) where
  ret : Bool
  m_navMesh : Nat
  engine : μ
  fp : List Nat
  events : List LoadEvent

/-- `bool CapekNav::LoadAll(const char *fn)`.  `fs` gives the bytes of each file that `fopen` can
open; `m_navMesh` is the member before the call. -/
def LoadAll {μ : Type} (L : Layout) (api : dtNavMeshApi μ) (fs : String → Option (List Nat))
    (s0 : μ) (m_navMesh : Nat) (fn : String) : LoadOut μ :=
  match fs fn with
  | none => { ret := false, m_navMesh := m_navMesh, engine := s0, fp := [],
              events := [LoadEvent.fopen] }
  | some bytes =>
    let header := L.readSetHeader (bytes.take L.sizeofSetHeader)
    let fp1 := bytes.drop L.sizeofSetHeader
    let ev1 := [LoadEvent.freadSetHeader, LoadEvent.fopen]
    if header.magic ≠ NAVMESHSET_MAGIC then
      { ret := false, m_navMesh := m_navMesh, engine := s0, fp := fp1,
        events := LoadEvent.fclose :: ev1 }
    else if header.version ≠ NAVMESHSET_VERSION then
      { ret := false, m_navMesh := m_navMesh, engine := s0, fp := fp1,
        events := LoadEvent.fclose :: ev1 }
    else
      let a := api.dtAllocNavMesh s0
      let ev2 := LoadEvent.dtAllocNavMesh :: ev1
      if a.2 = 0 then
        { ret := false, m_navMesh := m_navMesh, engine := a.1, fp := fp1,
          events := LoadEvent.fclose :: ev2 }
      else
        let r := api.initParams a.1 a.2 header.params
        let ev3 := LoadEvent.meshInit a.2 header.params :: ev2
        if api.dtStatusFailed r.2 = true then
          { ret := false, m_navMesh := m_navMesh, engine := r.1, fp := fp1,
            events := LoadEvent.fclose :: ev3 }
        else
          let st := loadTiles L api a.2 header.numTiles 0
            { fp := fp1, engine := r.1, events := ev3, tileHeader := L.staleTileHeader }
          { ret := true, m_navMesh := a.2, engine := st.engine, fp := st.fp,
            events := LoadEvent.fclose :: st.events }

/-- The `addTile` calls of an event log, oldest first. -/
def registered : List LoadEvent → List TileReg
  | [] => []
  | LoadEvent.addTile r :: es => registered es ++ [r]
  | _ :: es => registered es

/-- One tile of a container: its reference and its payload bytes. -/
structure TileRec where
  tileRef : dtTileRef
  data : List Nat
  deriving DecidableEq, Repr

/-- The tile header that precedes a tile's payload in a container. -/
def TileRec.header (t : TileRec) : NavMeshTileHeader :=
  { tileRef := t.tileRef, dataSize := (t.data.length : Int) }

/-- The `addTile` call expected for a tile. -/
def TileRec.reg {μ : Type} (api : dtNavMeshApi μ) (mesh : Nat) (t : TileRec) : TileReg :=
  { mesh := mesh, data := t.data, dataSize := (t.data.length : Int),
    flags := api.DT_TILE_FREE_DATA, tileRef := t.tileRef, lastRef := 0 }

/-- Bytes of a run of tiles, each a header written by `enc` followed by its payload. -/
def encodeTiles (enc : NavMeshTileHeader → List Nat) : List TileRec → List Nat
  | [] => []
  | t :: ts => enc t.header ++ t.data ++ encodeTiles enc ts

/-- Events of ingesting a run of tiles, most recent first. -/
def tilesEvents {μ : Type} (api : dtNavMeshApi μ) (mesh : Nat) : List TileRec → List LoadEvent
  | [] => []
  | t :: ts => tilesEvents api mesh ts ++
      [LoadEvent.addTile (t.reg api mesh), LoadEvent.freadData (t.data.length : Int),
       LoadEvent.dtAlloc (t.data.length : Int), LoadEvent.freadTileHeader]

/-- Whether every `dtAlloc` call made while ingesting the tiles `ts`, starting from engine state
`s`, returns a non-`NULL` buffer. -/
def allocsSucceed {μ : Type} (api : dtNavMeshApi μ) (mesh : Nat) : List TileRec → μ → Bool
  | [], _ => true
  | t :: ts, s =>
    decide ((api.dtAlloc s (t.data.length : Int) api.DT_ALLOC_PERM).2 ≠ 0) &&
      allocsSucceed api mesh ts
        (api.addTile (api.dtAlloc s (t.data.length : Int) api.DT_ALLOC_PERM).1
          (t.reg api mesh)).1

/-- Engine state reached from `s` by the calls of the tile loop for the tiles `ts`: for each
tile in order, `dtAlloc` for its size and then `addTile` with its payload, size and reference. -/
def engineAfter {μ : Type} (api : dtNavMeshApi μ) (mesh : Nat) : List TileRec → μ → μ
  | [], s => s
  | t :: ts, s =>
    engineAfter api mesh ts
      (api.addTile (api.dtAlloc s (t.data.length : Int) api.DT_ALLOC_PERM).1
        (t.reg api mesh)).1

/-- Whether the engine reports a status that is not failed for every `addTile` call made while
ingesting the tiles `ts`, starting from engine state `s`. -/
def addsSucceed {μ : Type} (api : dtNavMeshApi μ) (mesh : Nat) : List TileRec → μ → Bool
  | [], _ => true
  | t :: ts, s =>
    decide (api.dtStatusFailed (api.addTile
        (api.dtAlloc s (t.data.length : Int) api.DT_ALLOC_PERM).1 (t.reg api mesh)).2 = false) &&
      addsSucceed api mesh ts
        (api.addTile (api.dtAlloc s (t.data.length : Int) api.DT_ALLOC_PERM).1
          (t.reg api mesh)).1

/-! ## `CapekNav::AddTile` -/

/-- Outcome of one `AddTile` call: return value, whether the loader ran `delete [] navData`,
engine state. -/
structure AddTileOut (μ : Type) where
  ret : Bool
  freed : Bool
  engine : μ

/-- `bool CapekNav::AddTile(const char *fn)`.  `navData` is the content of the resource file as
delivered by the `File` helper (`File.h`); `navDataSize` is its length. -/
def AddTile {μ : Type} (api : dtNavMeshApi μ) (s0 : μ) (m_navMesh : Nat) (navData : List Nat) :
    AddTileOut μ :=
  let navDataSize : Int := (navData.length : Int)
  let r := api.initData s0 m_navMesh navData navDataSize api.DT_TILE_FREE_DATA
  if r.2 = 0 then
    { ret := false, freed := true, engine := r.1 }
  else
    { ret := true, freed := false, engine := r.1 }

/-! ## Example engines -/

/-- An engine over a trivial state that snaps every point to polygon `sRef`, reports a corridor of
`np` polygons and a straight path of `n` points read from `sp`. -/
def constQuery (sRef : dtPolyRef) (np n : Int) (sp : Nat → ℚ) : dtNavMeshQuery Unit :=
  { init := fun _ _ => ((), 0)
    findNearestPoly := fun _ c _ _ =>
      { state := (), status := 0, nearestRef := sRef, nearestPt := c }
    findPath := fun _ _ _ _ _ _ _ =>
      { state := (), status := 0, polys := fun _ => sRef, npolys := np }
    findStraightPath := fun _ _ _ _ _ _ =>
      { state := (), status := 0, straightPath := sp, straightPathFlags := fun _ => 0,
        straightPathPolys := fun _ => sRef, nstraightPath := n } }

/-- A zeroed output buffer with an empty store log. -/
def zeroMem : PathMem := { cell := fun _ => { x := 0, y := 0, z := 0 }, written := [] }

/-- Little-endian value of the first four bytes of a list. -/
def le32 (bs : List Nat) : Nat :=
  bs.getD 0 0 + 256 * bs.getD 1 0 + 65536 * bs.getD 2 0 + 16777216 * bs.getD 3 0

/-- Four little-endian bytes of a number. -/
def toLe32 (n : Nat) : List Nat :=
  [n % 256, n / 256 % 256, n / 65536 % 256, n / 16777216 % 256]

/-- Value of a 32-bit pattern read as a C `int` (two's complement). -/
def toInt32 (n : Nat) : Int :=
  if n < 2147483648 then (n : Int) else (n : Int) - 4294967296

/-- Value of a 32-bit pattern read as a binary32 `float`.  Infinities and NaN have no rational
value and are given `0`. -/
def f32 (n : Nat) : ℚ :=
  let m := n % 8388608
  let e := n / 8388608 % 256
  let sgn : ℚ := if n / 2147483648 % 2 = 1 then -1 else 1
  if e = 0 then sgn * (m : ℚ) / 2 ^ 149
  else if e = 255 then 0
  else if 150 ≤ e then sgn * (((8388608 + m : Nat) : ℚ) * 2 ^ (e - 150))
  else sgn * ((8388608 + m : Nat) : ℚ) / 2 ^ (150 - e)

/-- Writer for the 8-byte tile header: 32-bit reference, then the size as a C `int`. -/
def leEncTile (h : NavMeshTileHeader) : List Nat :=
  toLe32 h.tileRef ++ toLe32 (h.dataSize % 4294967296).toNat

/-- An example layout, that of a little-endian machine with 32-bit `int`, `float` and
`dtTileRef`: a 40-byte set header (`magic`, `version`, `numTiles`, then `orig[3]`, `tileWidth`,
`tileHeight`, `maxTiles`, `maxPolys`) and an 8-byte tile header.  A short read of a tile header
overwrites the leading bytes of the old value. -/
def leLayout : Layout :=
  { sizeofSetHeader := 40
    readSetHeader := fun bs =>
      { magic := toInt32 (le32 bs), version := toInt32 (le32 (bs.drop 4)),
        numTiles := toInt32 (le32 (bs.drop 8)),
        params :=
          { orig := { c0 := f32 (le32 (bs.drop 12)), c1 := f32 (le32 (bs.drop 16)),
                      c2 := f32 (le32 (bs.drop 20)) },
            tileWidth := f32 (le32 (bs.drop 24)), tileHeight := f32 (le32 (bs.drop 28)),
            maxTiles := toInt32 (le32 (bs.drop 32)), maxPolys := toInt32 (le32 (bs.drop 36)) } }
    sizeofTileHeader := 8
    staleTileHeader := { tileRef := 0, dataSize := 0 }
    readTileHeader := fun old bs =>
      let mem := bs ++ (leEncTile old).drop bs.length
      { tileRef := le32 mem, dataSize := toInt32 (le32 (mem.drop 4)) } }

/-- Set header bytes for `leLayout` with the given magic, version and tile count. -/
def leSetHeader (magic version numTiles : Nat) : List Nat :=
  toLe32 magic ++ toLe32 version ++ toLe32 numTiles ++ List.replicate 28 0

/-- An example mesh API over a trivial state: allocation hands out `meshPtr` and `dataPtr`, every
call reports `status`, and a status fails when its top bit (bit 31) is set. -/
def constApi (meshPtr dataPtr : Nat) (status : dtStatus) : dtNavMeshApi Unit :=
  { DT_TILE_FREE_DATA := 1
    DT_ALLOC_PERM := 0
    dtStatusFailed := fun st => decide (st / 2147483648 % 2 = 1)
    dtAllocNavMesh := fun _ => ((), meshPtr)
    initParams := fun _ _ _ => ((), status)
    initData := fun _ _ _ _ _ => ((), status)
    dtAlloc := fun _ _ _ => ((), dataPtr)
    addTile := fun _ _ => ((), status) }

/-- An example mesh API whose state is the list of tiles the mesh holds.  Allocation hands out
mesh `1000` and buffer `2000`, initialisation succeeds, and every `addTile` reports `addStatus`:
when that status is failed (bit 31 set) the tile is rejected, otherwise it is added. -/
def recApi (addStatus : dtStatus) : dtNavMeshApi (List TileReg) :=
  { DT_TILE_FREE_DATA := 1
    DT_ALLOC_PERM := 0
    dtStatusFailed := fun st => decide (st / 2147483648 % 2 = 1)
    dtAllocNavMesh := fun s => (s, 1000)
    initParams := fun s _ _ => (s, 1073741824)
    initData := fun s _ _ _ _ => (s, 1073741824)
    dtAlloc := fun s _ _ => (s, 2000)
    addTile := fun s r =>
      if addStatus / 2147483648 % 2 = 1 then (s, addStatus) else (s ++ [r], addStatus) }

/-- A file system holding a single file `name` with content `bytes`. -/
def oneFile (name : String) (bytes : List Nat) : String → Option (List Nat) :=
  fun fn => if fn = name then some bytes else none

/-- Two example tiles. -/
def exampleTiles : List TileRec :=
  [{ tileRef := 7, data := [10, 11, 12] }, { tileRef := 9, data := [42] }]

/-- A well-formed container for `leLayout`: valid header announcing two tiles, then the two
example tiles. -/
def fullContainer : List Nat :=
  leSetHeader 0x4D534554 1 2 ++ (encodeTiles leEncTile exampleTiles ++ [])

/-- A container for `leLayout` announcing five tiles: the two example tiles, then a tile header
with zero reference and zero size, then three more bytes. -/
def cutContainer : List Nat :=
  leSetHeader 0x4D534554 1 5 ++
    (encodeTiles leEncTile exampleTiles ++ (leEncTile { tileRef := 0, dataSize := 0 } ++ [1, 2, 3]))

/-! ## Lemmas on the tile loop -/

/-- The `addTile` calls of a concatenated log. -/
theorem registered_append (a b : List LoadEvent) :
    registered (a ++ b) = registered b ++ registered a := by
  induction a with
  | nil => simp [registered]
  | cons e a ih =>
    cases e <;> simp [registered, ih]

/-- The `addTile` calls logged for a run of tiles are those tiles, in order. -/
theorem registered_tilesEvents {μ : Type} (api : dtNavMeshApi μ) (mesh : Nat)
    (ts : List TileRec) : registered (tilesEvents api mesh ts) = ts.map (TileRec.reg api mesh) := by
  induction ts with
  | nil => simp [tilesEvents, registered]
  | cons t ts ih => simp [tilesEvents, registered_append, registered, ih]

/-- One iteration of the tile loop on a well-formed tile. -/
theorem loadTiles_step {μ : Type} (L : Layout) (api : dtNavMeshApi μ) (mesh : Nat)
    (numTiles : Int) (enc : NavMeshTileHeader → List Nat) (t : TileRec) (i : Nat)
    (rest : List Nat) (s : μ) (ev : List LoadEvent) (old : NavMeshTileHeader)
    (hlen : (enc t.header).length = L.sizeofTileHeader)
    (hread : L.readTileHeader old (enc t.header) = t.header)
    (href : t.tileRef ≠ 0) (hdata : t.data ≠ [])
    (halloc : (api.dtAlloc s (t.data.length : Int) api.DT_ALLOC_PERM).2 ≠ 0)
    (hi : (i : Int) < numTiles) :
    loadTiles L api mesh numTiles i
        { fp := enc t.header ++ t.data ++ rest, engine := s, events := ev, tileHeader := old } =
      loadTiles L api mesh numTiles (i + 1)
        { fp := rest
          engine := (api.addTile (api.dtAlloc s (t.data.length : Int) api.DT_ALLOC_PERM).1
            (t.reg api mesh)).1
          events := [LoadEvent.addTile (t.reg api mesh), LoadEvent.freadData (t.data.length : Int),
            LoadEvent.dtAlloc (t.data.length : Int), LoadEvent.freadTileHeader] ++ ev
          tileHeader := t.header } := by
  have htake : (enc t.header ++ t.data ++ rest).take L.sizeofTileHeader = enc t.header := by
    rw [List.append_assoc, ← hlen, List.take_left]
  have hdrop : (enc t.header ++ t.data ++ rest).drop L.sizeofTileHeader = t.data ++ rest := by
    rw [List.append_assoc, ← hlen, List.drop_left]
  have hne : t.data.length ≠ 0 := by
    intro h
    exact hdata (List.length_eq_zero.mp h)
  have h1 : t.header.tileRef = t.tileRef := rfl
  have h2 : t.header.dataSize = (t.data.length : Int) := rfl
  rw [loadTiles]
  simp only [hi, if_true, htake, hdrop, hread, h1, h2, href, false_or,
    Int.natCast_eq_zero, hne, if_false, halloc, Int.toNat_ofNat, List.take_left, List.drop_left,
    List.length_take, List.length_append, Nat.sub_self, List.replicate_zero, List.append_nil,
    TileRec.reg, List.cons_append, List.nil_append]

/-- The tile loop over a run of well-formed tiles: it consumes exactly their bytes, logs their
events, leaves the engine in the state reached by their `dtAlloc` and `addTile` calls, and
continues with the loop counter advanced by their number. -/
theorem loadTiles_run {μ : Type} (L : Layout) (api : dtNavMeshApi μ) (mesh : Nat)
    (numTiles : Int) (enc : NavMeshTileHeader → List Nat) :
    ∀ (ts : List TileRec) (i : Nat) (rest : List Nat) (s : μ) (ev : List LoadEvent)
      (old : NavMeshTileHeader),
      (∀ t ∈ ts, (enc t.header).length = L.sizeofTileHeader ∧
        ∀ o : NavMeshTileHeader, L.readTileHeader o (enc t.header) = t.header) →
      (∀ t ∈ ts, t.tileRef ≠ 0 ∧ t.data ≠ []) →
      allocsSucceed api mesh ts s = true →
      (i : Int) + (ts.length : Int) ≤ numTiles →
      ∃ h1 : NavMeshTileHeader,
        loadTiles L api mesh numTiles i
            { fp := encodeTiles enc ts ++ rest, engine := s, events := ev, tileHeader := old } =
          loadTiles L api mesh numTiles (i + ts.length)
            { fp := rest, engine := engineAfter api mesh ts s,
              events := tilesEvents api mesh ts ++ ev, tileHeader := h1 } := by
  intro ts
  induction ts with
  | nil =>
    intro i rest s ev old _ _ _ _
    exact ⟨old, by simp [encodeTiles, tilesEvents, engineAfter]⟩
  | cons t ts ih =>
    intro i rest s ev old henc hvalid halloc hi
    simp only [allocsSucceed, Bool.and_eq_true, decide_eq_true_eq] at halloc
    have ht := henc t (List.mem_cons_self t ts)
    have hv := hvalid t (List.mem_cons_self t ts)
    have hi1 : (i : Int) < numTiles := by
      simp only [List.length_cons, Nat.cast_add, Nat.cast_one] at hi
      omega
    have hi2 : ((i + 1 : Nat) : Int) + (ts.length : Int) ≤ numTiles := by
      simp only [List.length_cons, Nat.cast_add, Nat.cast_one] at hi ⊢
      omega
    obtain ⟨h1, hs1⟩ := ih (i + 1) rest
      (api.addTile (api.dtAlloc s (t.data.length : Int) api.DT_ALLOC_PERM).1 (t.reg api mesh)).1
      ([LoadEvent.addTile (t.reg api mesh), LoadEvent.freadData (t.data.length : Int),
        LoadEvent.dtAlloc (t.data.length : Int), LoadEvent.freadTileHeader] ++ ev)
      t.header
      (fun u hu => henc u (List.mem_cons_of_mem t hu))
      (fun u hu => hvalid u (List.mem_cons_of_mem t hu)) halloc.2 hi2
    refine ⟨h1, ?_⟩
    have hstep := loadTiles_step L api mesh numTiles enc t i (encodeTiles enc ts ++ rest) s ev old
      ht.1 (ht.2 old) hv.1 hv.2 halloc.1 hi1
    have e1 : encodeTiles enc (t :: ts) ++ rest =
        enc t.header ++ t.data ++ (encodeTiles enc ts ++ rest) := by
      simp [encodeTiles, List.append_assoc]
    have e2 : i + (t :: ts).length = i + 1 + ts.length := by
      simp only [List.length_cons]
      omega
    have e3 : tilesEvents api mesh (t :: ts) ++ ev = tilesEvents api mesh ts ++
        ([LoadEvent.addTile (t.reg api mesh), LoadEvent.freadData (t.data.length : Int),
          LoadEvent.dtAlloc (t.data.length : Int), LoadEvent.freadTileHeader] ++ ev) := by
      simp [tilesEvents, List.append_assoc]
    have e4 : engineAfter api mesh (t :: ts) s = engineAfter api mesh ts
        (api.addTile (api.dtAlloc s (t.data.length : Int) api.DT_ALLOC_PERM).1
          (t.reg api mesh)).1 := rfl
    rw [e1, e2, e3, e4, hstep, hs1]

/-- The tile loop stops without reading when the counter has reached `numTiles`. -/
theorem loadTiles_done {μ : Type} (L : Layout) (api : dtNavMeshApi μ) (mesh : Nat)
    (numTiles : Int) (i : Nat) (st : LoadState μ) (h : ¬ ((i : Int) < numTiles)) :
    loadTiles L api mesh numTiles i st = st := by
  rw [loadTiles]
  simp only [h, if_false]

/-- The tile loop stops right after reading a header with a zero reference or a zero size. -/
theorem loadTiles_stop {μ : Type} (L : Layout) (api : dtNavMeshApi μ) (mesh : Nat)
    (numTiles : Int) (i : Nat) (hk : List Nat) (rest : List Nat) (s : μ) (ev : List LoadEvent)
    (old : NavMeshTileHeader)
    (hlen : hk.length = L.sizeofTileHeader)
    (hzero : (L.readTileHeader old hk).tileRef = 0 ∨ (L.readTileHeader old hk).dataSize = 0)
    (hi : (i : Int) < numTiles) :
    loadTiles L api mesh numTiles i
        { fp := hk ++ rest, engine := s, events := ev, tileHeader := old } =
      { fp := rest, engine := s, events := LoadEvent.freadTileHeader :: ev,
        tileHeader := L.readTileHeader old hk } := by
  rw [loadTiles]
  simp only [hi, if_true, ← hlen, List.take_left, List.drop_left, hzero]

/-- What a mesh holds after the calls of the tile loop, for an engine in which `dtAlloc` leaves
the held tiles alone and an `addTile` whose status is not failed adds its tile. -/
theorem held_engineAfter {μ : Type} (api : dtNavMeshApi μ) (mesh : Nat)
    (held : μ → List TileReg)
    (hkeep : ∀ (s : μ) (n : Int), held (api.dtAlloc s n api.DT_ALLOC_PERM).1 = held s)
    (hadd : ∀ (s : μ) (r : TileReg), api.dtStatusFailed (api.addTile s r).2 = false →
      held (api.addTile s r).1 = held s ++ [r]) :
    ∀ (ts : List TileRec) (s : μ), addsSucceed api mesh ts s = true →
      held (engineAfter api mesh ts s) = held s ++ ts.map (TileRec.reg api mesh) := by
  intro ts
  induction ts with
  | nil =>
    intro s _
    simp [engineAfter]
  | cons t ts ih =>
    intro s h
    simp only [addsSucceed, Bool.and_eq_true, decide_eq_true_eq] at h
    rw [engineAfter, ih _ h.2, hadd _ _ h.1, hkeep]
    simp

/-! ## Lemmas on the output buffer -/

/-- Three field stores to one element, in the order `x, y, z`, fix its value. -/
theorem storeXYZ_cell (m : PathMem) (pos : Nat) (a b c : ℚ) :
    (((m.storeX pos a).storeY pos b).storeZ pos c).cell pos = { x := a, y := b, z := c } := by
  simp [PathMem.storeX, PathMem.storeY, PathMem.storeZ]

/-- Stores to element `pos` leave every other element alone. -/
theorem storeXYZ_cell_ne (m : PathMem) (pos j : Nat) (a b c : ℚ) (h : j ≠ pos) :
    (((m.storeX pos a).storeY pos b).storeZ pos c).cell j = m.cell j := by
  simp [PathMem.storeX, PathMem.storeY, PathMem.storeZ, h]

/-- Three field stores to one element, in the order `y, z, x`, fix its value. -/
theorem storeYZX_cell (m : PathMem) (pos : Nat) (a b c : ℚ) :
    (((m.storeY pos b).storeZ pos c).storeX pos a).cell pos = { x := a, y := b, z := c } := by
  simp [PathMem.storeX, PathMem.storeY, PathMem.storeZ]

/-- Stores to element `pos` in the order `y, z, x` leave every other element alone. -/
theorem storeYZX_cell_ne (m : PathMem) (pos j : Nat) (a b c : ℚ) (h : j ≠ pos) :
    (((m.storeY pos b).storeZ pos c).storeX pos a).cell j = m.cell j := by
  simp [PathMem.storeX, PathMem.storeY, PathMem.storeZ, h]

/-- The copy loop run for `k` remaining points: final `pos`, the cells written and the cells
left alone. -/
theorem copyStraightPath_spec (sp : Nat → ℚ) (n : Int) :
    ∀ (k i pos : Nat) (m : PathMem), (i : Int) + 3 * k = n * 3 →
      (copyStraightPath sp n i pos m).2 = pos + k ∧
      (∀ t, t < k → (copyStraightPath sp n i pos m).1.cell (pos + t) =
        toWorldSpace { c0 := sp (i + 3 * t), c1 := sp (i + 3 * t + 1), c2 := sp (i + 3 * t + 2) }) ∧
      (∀ j, j < pos → (copyStraightPath sp n i pos m).1.cell j = m.cell j) := by
  intro k
  induction k with
  | zero =>
    intro i pos m h
    have hlt : ¬ ((i : Int) < n * 3) := by omega
    rw [copyStraightPath]
    simp [hlt]
  | succ k ih =>
    intro i pos m h
    have hlt : (i : Int) < n * 3 := by omega
    rw [copyStraightPath]
    simp only [hlt, if_true]
    have h2 : ((i + 3 : Nat) : Int) + 3 * (k : Int) = n * 3 := by push_cast at h ⊢; omega
    obtain ⟨e1, e2, e3⟩ := ih (i + 3) (pos + 1)
      (((m.storeY pos (-1 * sp i)).storeZ pos (sp (i + 1))).storeX pos (-1 * sp (i + 2))) h2
    refine ⟨by rw [e1]; omega, ?_, ?_⟩
    · intro t ht
      cases t with
      | zero =>
        simp only [Nat.add_zero, Nat.mul_zero]
        rw [e3 pos (by omega), storeYZX_cell]
        simp [toWorldSpace]
      | succ t =>
        have := e2 t (by omega)
        rw [show pos + (t + 1) = pos + 1 + t by omega, this]
        rw [show i + 3 + 3 * t = i + 3 * (t + 1) by omega]
    · intro j hj
      rw [e3 j (by omega), storeYZX_cell_ne _ _ _ _ _ _ (by omega)]

/-! ## Theorems on `FindStraightPath` -/

/-- C2: for every world point `p`, mapping it to mesh space with the input mapping of
`FindStraightPath` and back with its output mapping returns `p` exactly. -/
theorem toWorldSpace_toMeshSpace (p : WOWPOS) : toWorldSpace (toMeshSpace p) = p := by
  cases p
  simp [toWorldSpace, toMeshSpace]

/-- C3: whenever both snapped polygon references are non-zero and the corridor is non-empty,
`FindStraightPath` returns a positive count `c` and the output element at index `c - 1` is the
caller's `end` argument, component for component. -/
theorem FindStraightPath_last_is_end {σ : Type} (E : Int) (q : dtNavMeshQuery σ) (s0 : σ)
    (start end_ : WOWPOS) (path : PathMem) (size : Int)
    (hs : (snapStart q s0 start).nearestRef ≠ 0)
    (he : (snapEnd q s0 start end_).nearestRef ≠ 0)
    (hc : (corridor q s0 start end_).npolys ≠ 0) :
    0 < (FindStraightPath E q s0 start end_ path size).ret ∧
    (FindStraightPath E q s0 start end_ path size).mem.cell
      ((FindStraightPath E q s0 start end_ path size).ret - 1).toNat = end_ := by
  simp only [FindStraightPath, hs, he, hc, or_self, if_false, ne_eq, not_false_eq_true, if_true]
  refine ⟨by omega, ?_⟩
  simp only [add_sub_cancel_right, Int.toNat_ofNat]
  rw [storeXYZ_cell]

/-- Instance of `FindStraightPath_last_is_end`: one straight-path point, end point `(9, 0, 9)`. -/
theorem FindStraightPath_last_is_end_witness :
    0 < (FindStraightPath (-1) (constQuery 1 1 1 (fun _ => 0)) () ⟨1, 0, 1⟩ ⟨9, 0, 9⟩
      zeroMem 8).ret ∧
    (FindStraightPath (-1) (constQuery 1 1 1 (fun _ => 0)) () ⟨1, 0, 1⟩ ⟨9, 0, 9⟩ zeroMem 8).mem.cell
      ((FindStraightPath (-1) (constQuery 1 1 1 (fun _ => 0)) () ⟨1, 0, 1⟩ ⟨9, 0, 9⟩
        zeroMem 8).ret - 1).toNat = ⟨9, 0, 9⟩ :=
  FindStraightPath_last_is_end (-1) (constQuery 1 1 1 (fun _ => 0)) () ⟨1, 0, 1⟩ ⟨9, 0, 9⟩
    zeroMem 8 (by decide) (by decide) (by decide)

/-- C4: if the nearest-polygon lookup gives a zero reference for the start or for the end,
`FindStraightPath` returns `ERROR_NEARESTPOLY`, its only engine calls are `init` and the two
lookups (no corridor search, no straight-path extraction: the engine is left in the state the
second lookup produced), and the output buffer is exactly as it was, with no store made. -/
theorem FindStraightPath_no_nearest_poly {σ : Type} (E : Int) (q : dtNavMeshQuery σ) (s0 : σ)
    (start end_ : WOWPOS) (path : PathMem) (size : Int)
    (h : (snapStart q s0 start).nearestRef = 0 ∨ (snapEnd q s0 start end_).nearestRef = 0) :
    (FindStraightPath E q s0 start end_ path size).ret = E ∧
    (FindStraightPath E q s0 start end_ path size).mem = path ∧
    (FindStraightPath E q s0 start end_ path size).calls =
      [QueryCall.findNearestPoly (toMeshSpace end_) m_polyPickExt m_filter,
       QueryCall.findNearestPoly (toMeshSpace start) m_polyPickExt m_filter,
       QueryCall.init 2048] ∧
    (∀ c ∈ (FindStraightPath E q s0 start end_ path size).calls,
      c.isFindPath = false ∧ c.isFindStraightPath = false) ∧
    (FindStraightPath E q s0 start end_ path size).state = (snapEnd q s0 start end_).state := by
  simp only [FindStraightPath, h, if_true]
  refine ⟨trivial, trivial, trivial, ?_, trivial⟩
  intro c hc
  simp only [List.mem_cons, List.mem_singleton, List.not_mem_nil, or_false] at hc
  rcases hc with rfl | rfl | rfl <;> exact ⟨rfl, rfl⟩

/-- Instance of `FindStraightPath_no_nearest_poly`: an engine that snaps every point to the zero
reference. -/
theorem FindStraightPath_no_nearest_poly_witness :
    (FindStraightPath (-1) (constQuery 0 1 1 (fun _ => 0)) () ⟨1, 0, 1⟩ ⟨9, 0, 9⟩
      zeroMem 8).ret = -1 ∧
    (FindStraightPath (-1) (constQuery 0 1 1 (fun _ => 0)) () ⟨1, 0, 1⟩ ⟨9, 0, 9⟩
      zeroMem 8).mem = zeroMem ∧
    (FindStraightPath (-1) (constQuery 0 1 1 (fun _ => 0)) () ⟨1, 0, 1⟩ ⟨9, 0, 9⟩
      zeroMem 8).calls =
      [QueryCall.findNearestPoly (toMeshSpace ⟨9, 0, 9⟩) m_polyPickExt m_filter,
       QueryCall.findNearestPoly (toMeshSpace ⟨1, 0, 1⟩) m_polyPickExt m_filter,
       QueryCall.init 2048] ∧
    ∀ c ∈ (FindStraightPath (-1) (constQuery 0 1 1 (fun _ => 0)) () ⟨1, 0, 1⟩ ⟨9, 0, 9⟩
      zeroMem 8).calls, c.isFindPath = false ∧ c.isFindStraightPath = false :=
  have h := FindStraightPath_no_nearest_poly (-1) (constQuery 0 1 1 (fun _ => 0)) () ⟨1, 0, 1⟩
    ⟨9, 0, 9⟩ zeroMem 8 (Or.inl (by decide))
  ⟨h.1, h.2.1, h.2.2.1, h.2.2.2.1⟩

/-- C9: when both snapped polygon references are non-zero and the corridor search reports zero
polygons, `FindStraightPath` returns `0`, never calls straight-path extraction (the engine is
left in the state the corridor search produced), and makes no store to the output buffer (the
end point is not appended). -/
theorem FindStraightPath_empty_corridor {σ : Type} (E : Int) (q : dtNavMeshQuery σ) (s0 : σ)
    (start end_ : WOWPOS) (path : PathMem) (size : Int)
    (hs : (snapStart q s0 start).nearestRef ≠ 0)
    (he : (snapEnd q s0 start end_).nearestRef ≠ 0)
    (hc : (corridor q s0 start end_).npolys = 0) :
    (FindStraightPath E q s0 start end_ path size).ret = 0 ∧
    (FindStraightPath E q s0 start end_ path size).mem = path ∧
    (FindStraightPath E q s0 start end_ path size).calls =
      [QueryCall.findPath (snapStart q s0 start).nearestRef (snapEnd q s0 start end_).nearestRef
         (toMeshSpace start) (toMeshSpace end_) m_filter MAX_POLYS,
       QueryCall.findNearestPoly (toMeshSpace end_) m_polyPickExt m_filter,
       QueryCall.findNearestPoly (toMeshSpace start) m_polyPickExt m_filter,
       QueryCall.init 2048] ∧
    (∀ c ∈ (FindStraightPath E q s0 start end_ path size).calls,
      c.isFindStraightPath = false) ∧
    (FindStraightPath E q s0 start end_ path size).state = (corridor q s0 start end_).state := by
  simp only [FindStraightPath, hs, he, hc, or_self, if_false, ne_eq, not_true_eq_false]
  refine ⟨trivial, trivial, trivial, ?_, trivial⟩
  intro c hc
  simp only [List.mem_cons, List.mem_singleton, List.not_mem_nil, or_false] at hc
  rcases hc with rfl | rfl | rfl | rfl <;> rfl

/-- Instance of `FindStraightPath_empty_corridor`: non-zero references and a corridor of zero
polygons. -/
theorem FindStraightPath_empty_corridor_witness :
    (FindStraightPath (-1) (constQuery 1 0 1 (fun _ => 0)) () ⟨1, 0, 1⟩ ⟨9, 0, 9⟩
      zeroMem 8).ret = 0 ∧
    (FindStraightPath (-1) (constQuery 1 0 1 (fun _ => 0)) () ⟨1, 0, 1⟩ ⟨9, 0, 9⟩
      zeroMem 8).mem = zeroMem :=
  have h := FindStraightPath_empty_corridor (-1) (constQuery 1 0 1 (fun _ => 0)) ()
    ⟨1, 0, 1⟩ ⟨9, 0, 9⟩ zeroMem 8 (by decide) (by decide) (by decide)
  ⟨h.1, h.2.1⟩

/-- C10: when both snapped references are non-zero, the corridor is non-empty and straight-path
extraction yields `n` mesh-space points, `FindStraightPath` returns `n + 1` and, for every
`i < n`, output element `i` is the engine's `i`-th point mapped to world space
(`x = -s[2], y = -s[0], z = s[1]`). -/
theorem FindStraightPath_waypoints {σ : Type} (E : Int) (q : dtNavMeshQuery σ) (s0 : σ)
    (start end_ : WOWPOS) (path : PathMem) (size : Int) (n : Nat)
    (hs : (snapStart q s0 start).nearestRef ≠ 0)
    (he : (snapEnd q s0 start end_).nearestRef ≠ 0)
    (hc : (corridor q s0 start end_).npolys ≠ 0)
    (hn : (straight q s0 start end_).nstraightPath = (n : Int)) :
    (FindStraightPath E q s0 start end_ path size).ret = (n : Int) + 1 ∧
    ∀ i, i < n → (FindStraightPath E q s0 start end_ path size).mem.cell i =
      toWorldSpace (pointAt (straight q s0 start end_).straightPath i) := by
  obtain ⟨e1, e2, -⟩ := copyStraightPath_spec (straight q s0 start end_).straightPath
    (straight q s0 start end_).nstraightPath n 0 0 path (by rw [hn]; push_cast; ring)
  simp only [FindStraightPath, hs, he, hc, or_self, if_false, ne_eq, not_false_eq_true, if_true]
  rw [e1]
  refine ⟨by simp, ?_⟩
  intro i hi
  rw [storeXYZ_cell_ne _ _ _ _ _ _ (by omega)]
  have := e2 i hi
  simp only [Nat.zero_add] at this
  rw [this, pointAt]

/-- Instance of `FindStraightPath_waypoints`: a straight path of two points read from the array
`sp[i] = i`. -/
theorem FindStraightPath_waypoints_witness :
    (FindStraightPath (-1) (constQuery 1 1 2 (fun i => i)) () ⟨1, 0, 1⟩ ⟨9, 0, 9⟩
      zeroMem 8).ret = ((2 : Nat) : Int) + 1 ∧
    ∀ i, i < 2 → (FindStraightPath (-1) (constQuery 1 1 2 (fun i => i)) () ⟨1, 0, 1⟩ ⟨9, 0, 9⟩
      zeroMem 8).mem.cell i =
      toWorldSpace (pointAt (straight (constQuery 1 1 2 (fun i => i)) () ⟨1, 0, 1⟩
        ⟨9, 0, 9⟩).straightPath i) :=
  FindStraightPath_waypoints (-1) (constQuery 1 1 2 (fun i => i)) () ⟨1, 0, 1⟩ ⟨9, 0, 9⟩
    zeroMem 8 2 (by decide) (by decide) (by decide) (by decide)

/-- C1: with capacity `size = 2`, non-zero snapped references, a non-empty corridor and a
straight path of two points, `FindStraightPath` returns `3` and stores the end point into
element `2`, beyond the caller's capacity. -/
theorem FindStraightPath_exceeds_capacity :
    (FindStraightPath (-1) (constQuery 1 1 2 (fun _ => 0)) () ⟨1, 0, 1⟩ ⟨9, 0, 9⟩
      zeroMem 2).ret = 3 ∧
    2 ∈ (FindStraightPath (-1) (constQuery 1 1 2 (fun _ => 0)) () ⟨1, 0, 1⟩ ⟨9, 0, 9⟩
      zeroMem 2).mem.written ∧
    (FindStraightPath (-1) (constQuery 1 1 2 (fun _ => 0)) () ⟨1, 0, 1⟩ ⟨9, 0, 9⟩
      zeroMem 2).mem.cell 2 = ⟨9, 0, 9⟩ := by
  have hs : (snapStart (constQuery 1 1 2 (fun _ => 0)) () ⟨1, 0, 1⟩).nearestRef ≠ 0 := by decide
  have he : (snapEnd (constQuery 1 1 2 (fun _ => 0)) () ⟨1, 0, 1⟩ ⟨9, 0, 9⟩).nearestRef ≠ 0 := by
    decide
  have hc : (corridor (constQuery 1 1 2 (fun _ => 0)) () ⟨1, 0, 1⟩ ⟨9, 0, 9⟩).npolys ≠ 0 := by
    decide
  have hn : (straight (constQuery 1 1 2 (fun _ => 0)) () ⟨1, 0, 1⟩ ⟨9, 0, 9⟩).nstraightPath
      = ((2 : Nat) : Int) := by decide
  obtain ⟨e1, -, -⟩ := copyStraightPath_spec
    (straight (constQuery 1 1 2 (fun _ => 0)) () ⟨1, 0, 1⟩ ⟨9, 0, 9⟩).straightPath
    (straight (constQuery 1 1 2 (fun _ => 0)) () ⟨1, 0, 1⟩ ⟨9, 0, 9⟩).nstraightPath 2 0 0 zeroMem
    (by rw [hn]; decide)
  simp only [FindStraightPath, hs, he, hc, or_self, if_false, ne_eq, not_false_eq_true, if_true]
  rw [e1]
  refine ⟨by decide, ?_, ?_⟩
  · simp [PathMem.storeX, PathMem.storeY, PathMem.storeZ]
  · rw [storeXYZ_cell]

/-! ## Theorems on `LoadAll` and `AddTile` -/

/-- C6: for every container whose header has a magic other than `NAVMESHSET_MAGIC`
(`0x4D534554`) or a version other than `1`, `LoadAll` returns `false` having only opened the
file, read the set header and closed the file: no tile header or payload is read, the engine is
never called (no mesh created, no tile registered) and `m_navMesh` keeps its value. -/
theorem LoadAll_rejects_bad_header {μ : Type} (L : Layout) (api : dtNavMeshApi μ)
    (fs : String → Option (List Nat)) (s0 : μ) (m_navMesh : Nat) (fn : String)
    (bytes : List Nat) (hopen : fs fn = some bytes)
    (hbad : (L.readSetHeader (bytes.take L.sizeofSetHeader)).magic ≠ NAVMESHSET_MAGIC ∨
      (L.readSetHeader (bytes.take L.sizeofSetHeader)).version ≠ NAVMESHSET_VERSION) :
    NAVMESHSET_MAGIC = 0x4D534554 ∧ NAVMESHSET_VERSION = 1 ∧
    (LoadAll L api fs s0 m_navMesh fn).ret = false ∧
    (LoadAll L api fs s0 m_navMesh fn).m_navMesh = m_navMesh ∧
    (LoadAll L api fs s0 m_navMesh fn).engine = s0 ∧
    (LoadAll L api fs s0 m_navMesh fn).fp = bytes.drop L.sizeofSetHeader ∧
    (LoadAll L api fs s0 m_navMesh fn).events =
      [LoadEvent.fclose, LoadEvent.freadSetHeader, LoadEvent.fopen] := by
  refine ⟨by decide, rfl, ?_⟩
  simp only [LoadAll, hopen]
  by_cases hm : (L.readSetHeader (bytes.take L.sizeofSetHeader)).magic = NAVMESHSET_MAGIC
  · have hv : (L.readSetHeader (bytes.take L.sizeofSetHeader)).version ≠ NAVMESHSET_VERSION := by
      rcases hbad with h | h
      · exact absurd hm h
      · exact h
    simp only [hm, hv, ne_eq, not_true_eq_false, not_false_eq_true, if_false, if_true, and_self]
  · simp only [hm, ne_eq, not_false_eq_true, if_true, and_self]

/-- Instance of `LoadAll_rejects_bad_header`: a container with the right magic and version `2`. -/
theorem LoadAll_rejects_bad_header_witness :
    NAVMESHSET_MAGIC = 0x4D534554 ∧ NAVMESHSET_VERSION = 1 ∧
    (LoadAll leLayout (constApi 1000 2000 1073741824)
      (oneFile "all.mset" (leSetHeader 0x4D534554 2 1 ++ encodeTiles leEncTile exampleTiles))
      () 55 "all.mset").ret = false ∧
    (LoadAll leLayout (constApi 1000 2000 1073741824)
      (oneFile "all.mset" (leSetHeader 0x4D534554 2 1 ++ encodeTiles leEncTile exampleTiles))
      () 55 "all.mset").m_navMesh = 55 ∧
    (LoadAll leLayout (constApi 1000 2000 1073741824)
      (oneFile "all.mset" (leSetHeader 0x4D534554 2 1 ++ encodeTiles leEncTile exampleTiles))
      () 55 "all.mset").engine = () ∧
    (LoadAll leLayout (constApi 1000 2000 1073741824)
      (oneFile "all.mset" (leSetHeader 0x4D534554 2 1 ++ encodeTiles leEncTile exampleTiles))
      () 55 "all.mset").fp =
      (leSetHeader 0x4D534554 2 1 ++ encodeTiles leEncTile exampleTiles).drop
        leLayout.sizeofSetHeader ∧
    (LoadAll leLayout (constApi 1000 2000 1073741824)
      (oneFile "all.mset" (leSetHeader 0x4D534554 2 1 ++ encodeTiles leEncTile exampleTiles))
      () 55 "all.mset").events =
      [LoadEvent.fclose, LoadEvent.freadSetHeader, LoadEvent.fopen] :=
  LoadAll_rejects_bad_header leLayout (constApi 1000 2000 1073741824)
    (oneFile "all.mset" (leSetHeader 0x4D534554 2 1 ++ encodeTiles leEncTile exampleTiles))
    () 55 "all.mset" (leSetHeader 0x4D534554 2 1 ++ encodeTiles leEncTile exampleTiles)
    (by simp [oneFile]) (Or.inr (by decide))

/-- C7: for every container made of a valid set header (right magic and version, `numTiles = N`)
followed by `N` tiles, each a header with a non-zero reference and a non-zero size followed by
its payload, when mesh allocation, mesh initialisation and every tile-buffer allocation succeed,
`LoadAll` returns `true`, installs the new mesh as `m_navMesh`, and calls `addTile` exactly `N`
times, once per tile in file order with its payload bytes, declared size and reference: the
engine ends in the state reached by those calls, and the log holds them and nothing else. -/
theorem LoadAll_registers_all_tiles {μ : Type} (L : Layout) (api : dtNavMeshApi μ)
    (fs : String → Option (List Nat)) (s0 : μ) (m_navMesh : Nat) (fn : String)
    (hdr : List Nat) (enc : NavMeshTileHeader → List Nat) (ts : List TileRec) (rest : List Nat)
    (hopen : fs fn = some (hdr ++ (encodeTiles enc ts ++ rest)))
    (hlen : hdr.length = L.sizeofSetHeader)
    (hmagic : (L.readSetHeader hdr).magic = NAVMESHSET_MAGIC)
    (hver : (L.readSetHeader hdr).version = NAVMESHSET_VERSION)
    (hnum : (L.readSetHeader hdr).numTiles = (ts.length : Int))
    (henc : ∀ t ∈ ts, (enc t.header).length = L.sizeofTileHeader ∧
      ∀ o : NavMeshTileHeader, L.readTileHeader o (enc t.header) = t.header)
    (hvalid : ∀ t ∈ ts, t.tileRef ≠ 0 ∧ t.data ≠ [])
    (hmesh : (api.dtAllocNavMesh s0).2 ≠ 0)
    (hinit : api.dtStatusFailed (api.initParams (api.dtAllocNavMesh s0).1
      (api.dtAllocNavMesh s0).2 (L.readSetHeader hdr).params).2 = false)
    (halloc : allocsSucceed api (api.dtAllocNavMesh s0).2 ts
      (api.initParams (api.dtAllocNavMesh s0).1 (api.dtAllocNavMesh s0).2
        (L.readSetHeader hdr).params).1 = true) :
    (LoadAll L api fs s0 m_navMesh fn).ret = true ∧
    (LoadAll L api fs s0 m_navMesh fn).m_navMesh = (api.dtAllocNavMesh s0).2 ∧
    (LoadAll L api fs s0 m_navMesh fn).engine =
      engineAfter api (api.dtAllocNavMesh s0).2 ts
        (api.initParams (api.dtAllocNavMesh s0).1 (api.dtAllocNavMesh s0).2
          (L.readSetHeader hdr).params).1 ∧
    registered (LoadAll L api fs s0 m_navMesh fn).events =
      ts.map (TileRec.reg api (api.dtAllocNavMesh s0).2) ∧
    (registered (LoadAll L api fs s0 m_navMesh fn).events).length = ts.length ∧
    (LoadAll L api fs s0 m_navMesh fn).fp = rest ∧
    (LoadAll L api fs s0 m_navMesh fn).events =
      LoadEvent.fclose :: (tilesEvents api (api.dtAllocNavMesh s0).2 ts ++
        [LoadEvent.meshInit (api.dtAllocNavMesh s0).2 (L.readSetHeader hdr).params,
         LoadEvent.dtAllocNavMesh, LoadEvent.freadSetHeader, LoadEvent.fopen]) := by
  obtain ⟨h1, hrun⟩ := loadTiles_run L api (api.dtAllocNavMesh s0).2 (L.readSetHeader hdr).numTiles
    enc ts 0 rest
    (api.initParams (api.dtAllocNavMesh s0).1 (api.dtAllocNavMesh s0).2
      (L.readSetHeader hdr).params).1
    [LoadEvent.meshInit (api.dtAllocNavMesh s0).2 (L.readSetHeader hdr).params,
     LoadEvent.dtAllocNavMesh, LoadEvent.freadSetHeader, LoadEvent.fopen]
    L.staleTileHeader henc hvalid halloc (by rw [hnum]; simp)
  rw [loadTiles_done L api (api.dtAllocNavMesh s0).2 (L.readSetHeader hdr).numTiles
    (0 + ts.length) _ (by rw [hnum]; push_cast; omega)] at hrun
  have hev : (LoadAll L api fs s0 m_navMesh fn).events =
      LoadEvent.fclose :: (tilesEvents api (api.dtAllocNavMesh s0).2 ts ++
        [LoadEvent.meshInit (api.dtAllocNavMesh s0).2 (L.readSetHeader hdr).params,
         LoadEvent.dtAllocNavMesh, LoadEvent.freadSetHeader, LoadEvent.fopen]) := by
    simp only [LoadAll, hopen, ← hlen, List.take_left, List.drop_left, hmagic, hver, hmesh, hinit,
      ne_eq, not_true_eq_false, if_false, Bool.false_eq_true, hrun]
  have hreg : registered (LoadAll L api fs s0 m_navMesh fn).events =
      ts.map (TileRec.reg api (api.dtAllocNavMesh s0).2) := by
    rw [hev]
    simp [registered, registered_append, registered_tilesEvents]
  refine ⟨?_, ?_, ?_, hreg, by rw [hreg, List.length_map], ?_, hev⟩
  · simp only [LoadAll, hopen, ← hlen, List.take_left, List.drop_left, hmagic, hver, hmesh, hinit,
      ne_eq, not_true_eq_false, if_false, Bool.false_eq_true]
  · simp only [LoadAll, hopen, ← hlen, List.take_left, List.drop_left, hmagic, hver, hmesh, hinit,
      ne_eq, not_true_eq_false, if_false, Bool.false_eq_true]
  · simp only [LoadAll, hopen, ← hlen, List.take_left, List.drop_left, hmagic, hver, hmesh, hinit,
      ne_eq, not_true_eq_false, if_false, Bool.false_eq_true, hrun]
  · simp only [LoadAll, hopen, ← hlen, List.take_left, List.drop_left, hmagic, hver, hmesh, hinit,
      ne_eq, not_true_eq_false, if_false, Bool.false_eq_true, hrun]

/-- Instance of `LoadAll_registers_all_tiles`: `fullContainer` with an engine that records the
tiles it holds and accepts every call; the mesh ends holding the two tiles, in file order. -/
theorem LoadAll_registers_all_tiles_witness :
    (LoadAll leLayout (recApi 1073741824) (oneFile "all.mset" fullContainer)
      [] 55 "all.mset").ret = true ∧
    (LoadAll leLayout (recApi 1073741824) (oneFile "all.mset" fullContainer)
      [] 55 "all.mset").m_navMesh = 1000 ∧
    (LoadAll leLayout (recApi 1073741824) (oneFile "all.mset" fullContainer)
      [] 55 "all.mset").engine =
      [{ mesh := 1000, data := [10, 11, 12], dataSize := 3, flags := 1, tileRef := 7,
         lastRef := 0 },
       { mesh := 1000, data := [42], dataSize := 1, flags := 1, tileRef := 9, lastRef := 0 }] ∧
    registered (LoadAll leLayout (recApi 1073741824)
      (oneFile "all.mset" fullContainer) [] 55 "all.mset").events =
      [{ mesh := 1000, data := [10, 11, 12], dataSize := 3, flags := 1, tileRef := 7,
         lastRef := 0 },
       { mesh := 1000, data := [42], dataSize := 1, flags := 1, tileRef := 9, lastRef := 0 }] :=
  have h := LoadAll_registers_all_tiles leLayout (recApi 1073741824)
    (oneFile "all.mset" fullContainer) [] 55 "all.mset" (leSetHeader 0x4D534554 1 2) leEncTile
    exampleTiles [] (by simp [oneFile, fullContainer]) (by decide) (by decide) (by decide)
    (by decide)
    (by
      intro t ht
      simp only [exampleTiles, List.mem_cons, List.mem_singleton, List.not_mem_nil,
        or_false] at ht
      rcases ht with rfl | rfl <;> exact ⟨rfl, fun _ => rfl⟩)
    (by decide) (by decide) (by decide) (by decide)
  ⟨h.1, h.2.1, h.2.2.1, h.2.2.2.1⟩

/-- C8 (amended): for every container with a valid set header whose first `k` tiles are
well-formed (non-zero reference, non-zero size, payload present) and whose next tile header has
a zero reference or a zero size, with `k < numTiles`, when mesh allocation, mesh initialisation
and every tile-buffer allocation succeed, `LoadAll` returns `true`, installs the new mesh as
`m_navMesh`, makes exactly the `addTile` calls of the first `k` tiles in order (the engine ends
in the state reached by those calls), and after that header it reads nothing and only closes
the file.  `LoadAll` does not look at the status of `addTile`: the mesh holds those `k` tiles
whenever the engine accepts each of the registrations. -/
theorem LoadAll_stops_at_zero_header {μ : Type} (L : Layout) (api : dtNavMeshApi μ)
    (fs : String → Option (List Nat)) (s0 : μ) (m_navMesh : Nat) (fn : String)
    (hdr : List Nat) (enc : NavMeshTileHeader → List Nat) (ts : List TileRec)
    (hk rest : List Nat)
    (hopen : fs fn = some (hdr ++ (encodeTiles enc ts ++ (hk ++ rest))))
    (hlen : hdr.length = L.sizeofSetHeader)
    (hmagic : (L.readSetHeader hdr).magic = NAVMESHSET_MAGIC)
    (hver : (L.readSetHeader hdr).version = NAVMESHSET_VERSION)
    (hnum : (ts.length : Int) < (L.readSetHeader hdr).numTiles)
    (henc : ∀ t ∈ ts, (enc t.header).length = L.sizeofTileHeader ∧
      ∀ o : NavMeshTileHeader, L.readTileHeader o (enc t.header) = t.header)
    (hvalid : ∀ t ∈ ts, t.tileRef ≠ 0 ∧ t.data ≠ [])
    (hklen : hk.length = L.sizeofTileHeader)
    (hkzero : ∀ o : NavMeshTileHeader,
      (L.readTileHeader o hk).tileRef = 0 ∨ (L.readTileHeader o hk).dataSize = 0)
    (hmesh : (api.dtAllocNavMesh s0).2 ≠ 0)
    (hinit : api.dtStatusFailed (api.initParams (api.dtAllocNavMesh s0).1
      (api.dtAllocNavMesh s0).2 (L.readSetHeader hdr).params).2 = false)
    (halloc : allocsSucceed api (api.dtAllocNavMesh s0).2 ts
      (api.initParams (api.dtAllocNavMesh s0).1 (api.dtAllocNavMesh s0).2
        (L.readSetHeader hdr).params).1 = true) :
    (LoadAll L api fs s0 m_navMesh fn).ret = true ∧
    (LoadAll L api fs s0 m_navMesh fn).m_navMesh = (api.dtAllocNavMesh s0).2 ∧
    (LoadAll L api fs s0 m_navMesh fn).engine =
      engineAfter api (api.dtAllocNavMesh s0).2 ts
        (api.initParams (api.dtAllocNavMesh s0).1 (api.dtAllocNavMesh s0).2
          (L.readSetHeader hdr).params).1 ∧
    registered (LoadAll L api fs s0 m_navMesh fn).events =
      ts.map (TileRec.reg api (api.dtAllocNavMesh s0).2) ∧
    (LoadAll L api fs s0 m_navMesh fn).fp = rest ∧
    (LoadAll L api fs s0 m_navMesh fn).events =
      LoadEvent.fclose :: LoadEvent.freadTileHeader ::
        (tilesEvents api (api.dtAllocNavMesh s0).2 ts ++
          [LoadEvent.meshInit (api.dtAllocNavMesh s0).2 (L.readSetHeader hdr).params,
           LoadEvent.dtAllocNavMesh, LoadEvent.freadSetHeader, LoadEvent.fopen]) ∧
    ∀ held : μ → List TileReg,
      (∀ (s : μ) (n : Int), held (api.dtAlloc s n api.DT_ALLOC_PERM).1 = held s) →
      (∀ (s : μ) (r : TileReg), api.dtStatusFailed (api.addTile s r).2 = false →
        held (api.addTile s r).1 = held s ++ [r]) →
      addsSucceed api (api.dtAllocNavMesh s0).2 ts
        (api.initParams (api.dtAllocNavMesh s0).1 (api.dtAllocNavMesh s0).2
          (L.readSetHeader hdr).params).1 = true →
      held (LoadAll L api fs s0 m_navMesh fn).engine =
        held (api.initParams (api.dtAllocNavMesh s0).1 (api.dtAllocNavMesh s0).2
          (L.readSetHeader hdr).params).1 ++
          ts.map (TileRec.reg api (api.dtAllocNavMesh s0).2) := by
  obtain ⟨h1, hrun⟩ := loadTiles_run L api (api.dtAllocNavMesh s0).2 (L.readSetHeader hdr).numTiles
    enc ts 0 (hk ++ rest)
    (api.initParams (api.dtAllocNavMesh s0).1 (api.dtAllocNavMesh s0).2
      (L.readSetHeader hdr).params).1
    [LoadEvent.meshInit (api.dtAllocNavMesh s0).2 (L.readSetHeader hdr).params,
     LoadEvent.dtAllocNavMesh, LoadEvent.freadSetHeader, LoadEvent.fopen]
    L.staleTileHeader henc hvalid halloc (by omega)
  rw [loadTiles_stop L api (api.dtAllocNavMesh s0).2 (L.readSetHeader hdr).numTiles
    (0 + ts.length) hk rest _ _ h1 hklen (hkzero h1) (by push_cast; omega)] at hrun
  have hev : (LoadAll L api fs s0 m_navMesh fn).events =
      LoadEvent.fclose :: LoadEvent.freadTileHeader ::
        (tilesEvents api (api.dtAllocNavMesh s0).2 ts ++
          [LoadEvent.meshInit (api.dtAllocNavMesh s0).2 (L.readSetHeader hdr).params,
           LoadEvent.dtAllocNavMesh, LoadEvent.freadSetHeader, LoadEvent.fopen]) := by
    simp only [LoadAll, hopen, ← hlen, List.take_left, List.drop_left, hmagic, hver, hmesh, hinit,
      ne_eq, not_true_eq_false, if_false, Bool.false_eq_true, hrun]
  have hreg : registered (LoadAll L api fs s0 m_navMesh fn).events =
      ts.map (TileRec.reg api (api.dtAllocNavMesh s0).2) := by
    rw [hev]
    simp [registered, registered_append, registered_tilesEvents]
  have heng : (LoadAll L api fs s0 m_navMesh fn).engine =
      engineAfter api (api.dtAllocNavMesh s0).2 ts
        (api.initParams (api.dtAllocNavMesh s0).1 (api.dtAllocNavMesh s0).2
          (L.readSetHeader hdr).params).1 := by
    simp only [LoadAll, hopen, ← hlen, List.take_left, List.drop_left, hmagic, hver, hmesh, hinit,
      ne_eq, not_true_eq_false, if_false, Bool.false_eq_true, hrun]
  refine ⟨?_, ?_, heng, hreg, ?_, hev, ?_⟩
  · simp only [LoadAll, hopen, ← hlen, List.take_left, List.drop_left, hmagic, hver, hmesh, hinit,
      ne_eq, not_true_eq_false, if_false, Bool.false_eq_true]
  · simp only [LoadAll, hopen, ← hlen, List.take_left, List.drop_left, hmagic, hver, hmesh, hinit,
      ne_eq, not_true_eq_false, if_false, Bool.false_eq_true]
  · simp only [LoadAll, hopen, ← hlen, List.take_left, List.drop_left, hmagic, hver, hmesh, hinit,
      ne_eq, not_true_eq_false, if_false, Bool.false_eq_true, hrun]
  · intro held hkeep hadd hadds
    rw [heng]
    exact held_engineAfter api (api.dtAllocNavMesh s0).2 held hkeep hadd ts _ hadds

/-- Instance of `LoadAll_stops_at_zero_header`: `cutContainer` with an engine that records the
tiles it holds and accepts every call; the mesh ends holding the two tiles and the three bytes
after the zero header stay unread. -/
theorem LoadAll_stops_at_zero_header_witness :
    (LoadAll leLayout (recApi 1073741824) (oneFile "all.mset" cutContainer)
      [] 55 "all.mset").ret = true ∧
    (LoadAll leLayout (recApi 1073741824) (oneFile "all.mset" cutContainer)
      [] 55 "all.mset").m_navMesh = 1000 ∧
    (LoadAll leLayout (recApi 1073741824) (oneFile "all.mset" cutContainer)
      [] 55 "all.mset").engine =
      [{ mesh := 1000, data := [10, 11, 12], dataSize := 3, flags := 1, tileRef := 7,
         lastRef := 0 },
       { mesh := 1000, data := [42], dataSize := 1, flags := 1, tileRef := 9, lastRef := 0 }] ∧
    registered (LoadAll leLayout (recApi 1073741824)
      (oneFile "all.mset" cutContainer) [] 55 "all.mset").events =
      [{ mesh := 1000, data := [10, 11, 12], dataSize := 3, flags := 1, tileRef := 7,
         lastRef := 0 },
       { mesh := 1000, data := [42], dataSize := 1, flags := 1, tileRef := 9, lastRef := 0 }] ∧
    (LoadAll leLayout (recApi 1073741824) (oneFile "all.mset" cutContainer)
      [] 55 "all.mset").fp = [1, 2, 3] ∧
    id (LoadAll leLayout (recApi 1073741824) (oneFile "all.mset" cutContainer)
      [] 55 "all.mset").engine = id [] ++ exampleTiles.map (TileRec.reg (recApi 1073741824) 1000) :=
  have h := LoadAll_stops_at_zero_header leLayout (recApi 1073741824)
    (oneFile "all.mset" cutContainer) [] 55 "all.mset" (leSetHeader 0x4D534554 1 5) leEncTile
    exampleTiles (leEncTile { tileRef := 0, dataSize := 0 }) [1, 2, 3]
    (by simp [oneFile, cutContainer]) (by decide) (by decide) (by decide) (by decide)
    (by
      intro t ht
      simp only [exampleTiles, List.mem_cons, List.mem_singleton, List.not_mem_nil,
        or_false] at ht
      rcases ht with rfl | rfl <;> exact ⟨rfl, fun _ => rfl⟩)
    (by decide) (by decide) (fun _ => Or.inl rfl) (by decide) (by decide) (by decide)
  ⟨h.1, h.2.1, h.2.2.1, h.2.2.2.1, h.2.2.2.2.1,
    h.2.2.2.2.2.2 id (fun _ _ => rfl) (fun _ _ _ => rfl) (by decide)⟩

/-- C8 (as stated, refuted): on `cutContainer`, a container with a valid header, two
well-formed tiles and then a zero tile header, `LoadAll` returns `false` and leaves `m_navMesh`
alone when mesh allocation yields `NULL` or mesh initialisation fails, registers no tile
(while returning `true`) when the first tile-buffer allocation yields `NULL`, and returns
`true` with a mesh that holds no tile when the engine rejects each `addTile`. -/
theorem LoadAll_zero_header_needs_allocation :
    ((LoadAll leLayout (constApi 0 2000 1073741824) (oneFile "all.mset" cutContainer)
      () 55 "all.mset").ret = false ∧
     (LoadAll leLayout (constApi 0 2000 1073741824) (oneFile "all.mset" cutContainer)
      () 55 "all.mset").m_navMesh = 55) ∧
    ((LoadAll leLayout (constApi 1000 2000 2147483648) (oneFile "all.mset" cutContainer)
      () 55 "all.mset").ret = false ∧
     (LoadAll leLayout (constApi 1000 2000 2147483648) (oneFile "all.mset" cutContainer)
      () 55 "all.mset").m_navMesh = 55) ∧
    ((LoadAll leLayout (constApi 1000 0 1073741824) (oneFile "all.mset" cutContainer)
      () 55 "all.mset").ret = true ∧
     registered (LoadAll leLayout (constApi 1000 0 1073741824)
      (oneFile "all.mset" cutContainer) () 55 "all.mset").events = []) ∧
    ((LoadAll leLayout (recApi 2147483648) (oneFile "all.mset" cutContainer)
      [] 55 "all.mset").ret = true ∧
     (LoadAll leLayout (recApi 2147483648) (oneFile "all.mset" cutContainer)
      [] 55 "all.mset").m_navMesh = 1000 ∧
     (LoadAll leLayout (recApi 2147483648) (oneFile "all.mset" cutContainer)
      [] 55 "all.mset").engine = []) := by
  have hopen : oneFile "all.mset" cutContainer "all.mset" = some cutContainer := by
    simp [oneFile]
  refine ⟨⟨?_, ?_⟩, ⟨?_, ?_⟩, ⟨?_, ?_⟩, ?_, ?_, ?_⟩
  · simp only [LoadAll, hopen]; decide
  · simp only [LoadAll, hopen]; decide
  · simp only [LoadAll, hopen]; decide
  · simp only [LoadAll, hopen]; decide
  · simp only [LoadAll, hopen]; decide
  · simp only [LoadAll, hopen]
    rw [loadTiles]
    decide
  · simp only [LoadAll, hopen]; decide
  · simp only [LoadAll, hopen]; decide
  · simp only [LoadAll, hopen]
    rw [loadTiles]
    dsimp only
    rw [loadTiles]
    dsimp only
    rw [loadTiles]
    decide

/-- C5: when the engine's tile ingestion reports the failed status `0x80000000` (failure bit
set), `AddTile` sees a non-zero value, does not free the buffer and returns `true`. -/
theorem AddTile_failed_status_returns_true :
    (constApi 1000 2000 2147483648).dtStatusFailed
      ((constApi 1000 2000 2147483648).initData () 1000 [1, 2, 3] 3 1).2 = true ∧
    (AddTile (constApi 1000 2000 2147483648) () 1000 [1, 2, 3]).ret = true ∧
    (AddTile (constApi 1000 2000 2147483648) () 1000 [1, 2, 3]).freed = false := by
  decide

/-- `AddTile` returns `true` and keeps the buffer for every non-zero status, and returns `false`
and frees it exactly for the status `0`. -/
theorem AddTile_ret_iff {μ : Type} (api : dtNavMeshApi μ) (s0 : μ) (m_navMesh : Nat)
    (navData : List Nat) :
    ((AddTile api s0 m_navMesh navData).ret = true ↔
      (api.initData s0 m_navMesh navData (navData.length : Int) api.DT_TILE_FREE_DATA).2 ≠ 0) ∧
    ((AddTile api s0 m_navMesh navData).freed = true ↔
      (api.initData s0 m_navMesh navData (navData.length : Int) api.DT_TILE_FREE_DATA).2 = 0) := by
  unfold AddTile
  by_cases h : (api.initData s0 m_navMesh navData (navData.length : Int)
      api.DT_TILE_FREE_DATA).2 = 0 <;> simp [h]

end CapekNav
